import Mathlib

/-!
# Verification of the red-tide risk web application

Shallow embedding of `src/RedTide_Web_App.py` (a Streamlit dashboard for
red-tide risk assessment over Tongyeong sea-surface observations) and proofs
about it.  Floating-point temperatures and salinities are modelled as
rationals; pandas DataFrames are modelled as lists of records; the stateful
UI handlers are modelled as explicit state-passing functions.
-/

namespace RedTide

/-- A calendar date, as produced by `pd.to_datetime` on the `Date` column. -/
structure Date where
  year : Nat
  month : Nat
  day : Nat
  deriving DecidableEq, Repr

/-- Total order key on dates (lexicographic year, month, day). -/
def Date.key (d : Date) : Nat :=
  d.year * 10000 + d.month * 100 + d.day

/-- Holds when `a` is on or before `b` in calendar order. -/
def Date.le (a b : Date) : Prop :=
  a.key ≤ b.key

instance : DecidableRel Date.le := fun a b => Nat.decLe a.key b.key

/-- One cleaned row of `tongyeong_lite.csv`: parsed date, temperature (°C),
salinity (psu). -/
structure EnvRecord where
  date : Date
  temp : Rat
  salt : Rat
  deriving DecidableEq, Repr

/-- The risk tier returned by `assess_red_tide_risk` (the Korean level
strings of lines 124-129). -/
inductive Tier where
  | severe
  | caution
  | safe
  deriving DecidableEq, Repr

/-- The display colour paired with each tier (lines 124-129). -/
inductive Color where
  | red
  | orange
  | green
  deriving DecidableEq, Repr

/-- Identifiers for the reason strings appended by `assess_red_tide_risk`;
each constructor stands for one distinct message of lines 84-121. -/
inductive Reason where
  | optimalTemp
  | midTemp
  | highTemp
  | lowTemp
  | tempOutOfRange
  | optimalSalt
  | lowSalt
  | saltOutOfRange
  deriving DecidableEq, Repr

/-- Temperature section of `assess_red_tide_risk` (lines 84-110): the
`if`/`elif` chain yielding the score increment and the appended reason.
Branch order follows the source exactly. -/
def tempEval (temp : Rat) : Int × Reason :=
  if temp = 20 then (70, .optimalTemp)
  else if temp = 25 then (70, .optimalTemp)
  else if temp = 27.5 then (70, .optimalTemp)
  else if 21 ≤ temp ∧ temp ≤ 24.9 then (50, .midTemp)
  else if 25.1 ≤ temp ∧ temp ≤ 27.4 then (55, .midTemp)
  else if 27.6 ≤ temp ∧ temp ≤ 30 then (65, .midTemp)
  else if 30 ≤ temp then (-20, .highTemp)
  else if temp ≤ 15 then (-20, .lowTemp)
  else (-10, .tempOutOfRange)

/-- Salinity section of `assess_red_tide_risk` (lines 113-121). -/
def saltEval (salt : Rat) : Int × Reason :=
  if 31 ≤ salt ∧ salt ≤ 34 then (50, .optimalSalt)
  else if salt ≤ 20 then (-20, .lowSalt)
  else (-10, .saltOutOfRange)

/-- The summed `risk_score` accumulated by `assess_red_tide_risk`. -/
def riskScore (temp salt : Rat) : Int :=
  (tempEval temp).1 + (saltEval salt).1

/-- The function `assess_red_tide_risk(temp, salt)` (lines 79-129): returns the tier, the
display colour, and the reasons in evaluation order (temperature reason
first, then salinity reason); the final tier thresholds the summed score at
85 and 40 (lines 124-129). -/
def assess_red_tide_risk (temp salt : Rat) : Tier × Color × List Reason :=
  let score := riskScore temp salt
  let reasons := [(tempEval temp).2, (saltEval salt).2]
  if 85 ≤ score then (.severe, .red, reasons)
  else if 40 ≤ score then (.caution, .orange, reasons)
  else (.safe, .green, reasons)

/-- How many of the eight explicit temperature bracket conditions of
lines 84-107 (`temp == 20`, `temp == 25`, `temp == 27.5`,
`21 <= temp <= 24.9`, `25.1 <= temp <= 27.4`, `27.6 <= temp <= 30`,
`temp >= 30`, `temp <= 15`; the trailing `else` is not a condition) hold at
a given temperature. -/
def bracketMatchCount (t : Rat) : Nat :=
  (if t = 20 then 1 else 0) + (if t = 25 then 1 else 0) + (if t = 27.5 then 1 else 0) +
    (if 21 ≤ t ∧ t ≤ 24.9 then 1 else 0) + (if 25.1 ≤ t ∧ t ≤ 27.4 then 1 else 0) +
    (if 27.6 ≤ t ∧ t ≤ 30 then 1 else 0) + (if 30 ≤ t then 1 else 0) +
    (if t ≤ 15 then 1 else 0)

/-- A raw CSV row of `tongyeong_lite.csv` as returned by `pd.read_csv`,
before the `Date` column has been parsed by `pd.to_datetime`. -/
structure RawRow where
  dateStr : String
  temp : Rat
  salt : Rat
  deriving DecidableEq, Repr

/-- Outcome of probing one candidate path for `tongyeong_lite.csv` inside
`load_all_data` (lines 48-60).
`missing`: `os.path.exists(fpath)` is false, the body is skipped.
`readError`: `pd.read_csv` itself raises, so the pending assignment to
`env_df` never happens and the exception is swallowed by `except: pass`.
`dateError`: `pd.read_csv` succeeds and its frame is assigned to `env_df`,
but `pd.to_datetime` on the `Date` column then raises (the modelled
mid-processing failure), leaving the raw frame behind.
`ok`: every processing step succeeds; `rows` are the date-parsed rows
before the outlier filter of line 56 is applied. -/
inductive Candidate where
  | missing
  | readError
  | dateError (raw : List RawRow)
  | ok (rows : List EnvRecord)
  deriving DecidableEq, Repr

/-- The value held by `env_df` whenever `load_all_data` returns it
non-`None`: either the raw frame left behind by a failed processing attempt
(`dateError`), or the fully processed rows. -/
inductive EnvResult where
  | residualData (raw : List RawRow)
  | cleanData (rows : List EnvRecord)
  deriving DecidableEq, Repr

/-- The outlier filter of line 56:
`env_df[(env_df['Temp'] > 0) & (env_df['Salt'] > 0) & (env_df['Salt'] < 45)]`. -/
def cleanRows (rows : List EnvRecord) : List EnvRecord :=
  rows.filter fun r => decide (0 < r.temp) && decide (0 < r.salt) && decide (r.salt < 45)

/-- The first `for p in paths` loop of `load_all_data` (lines 48-60), as a
state-passing fold; `acc` is the current value of the `env_df` variable.
A fully successful candidate `break`s out of the loop. -/
def loadEnvLoop : List Candidate → Option EnvResult → Option EnvResult
  | [], acc => acc
  | c :: rest, acc =>
    match c with
    | .missing => loadEnvLoop rest acc
    | .readError => loadEnvLoop rest acc
    | .dateError raw => loadEnvLoop rest (some (.residualData raw))
    | .ok rows => some (.cleanData (cleanRows rows))

/-- The environment component of `load_all_data`: `env_df = None`
initially (line 44), then the probing loop. -/
def loadEnvData (cs : List Candidate) : Option EnvResult :=
  loadEnvLoop cs none

/-- The rows are in ascending calendar order. -/
def dateSorted (rows : List EnvRecord) : Prop :=
  rows.Pairwise fun a b => Date.le a.date b.date

instance : DecidablePred dateSorted := fun rows =>
  inferInstanceAs (Decidable (rows.Pairwise _))

/-- Line 174, `env_df[env_df.index.date == input_date]`: the records whose
parsed date equals the queried calendar date. -/
def matchingDate (rows : List EnvRecord) (d : Date) : List EnvRecord :=
  rows.filter fun r => decide (r.date = d)

/-- Pandas `Series.mean()`: the arithmetic mean of a list of rationals. -/
def listMean (l : List Rat) : Rat :=
  l.sum / l.length

/-- The historical-date query of tab 1 (lines 174-189): absent when no row
matches the date (`len(target_data) > 0` fails), else the pair of the mean
temperature and the mean salinity of the matching rows. -/
def queryByDate (rows : List EnvRecord) (d : Date) : Option (Rat × Rat) :=
  let m := matchingDate rows d
  if 0 < m.length then
    some (listMean (m.map EnvRecord.temp), listMean (m.map EnvRecord.salt))
  else none

/-- A raw CSV row of `redtide_occurrences.csv`: `density` is `some q` when
`pd.to_numeric` parses the cell to the number `q`, and `none` when the cell
is unparsable (coerced to NaN by `errors='coerce'`). -/
structure OccurRawRow where
  date : Date
  temp : Rat
  salt : Rat
  density : Option Rat
  deriving DecidableEq, Repr

/-- A processed occurrence record after line 70. -/
structure OccurRecord where
  date : Date
  temp : Rat
  salt : Rat
  density : Rat
  deriving DecidableEq, Repr

/-- Line 70: `occur_df['Density'] =
pd.to_numeric(occur_df['Density'], errors='coerce').fillna(0)` — coerce the
density column to numbers, mapping unparsable (NaN) entries to 0 and
keeping every parsed number, whatever its sign. -/
def processOccurRows (rows : List OccurRawRow) : List OccurRecord :=
  rows.map fun r =>
    { date := r.date, temp := r.temp, salt := r.salt, density := r.density.getD 0 }

/-- The squared-distance `Similarity` value of line 255:
`(env_df['Temp'] - input_temp)**2 + (env_df['Salt'] - pred_salt)**2`. -/
def similarity (targetTemp targetSalt : Rat) (r : EnvRecord) : Rat :=
  (r.temp - targetTemp) ^ 2 + (r.salt - targetSalt) ^ 2

/-- The ordering used by `env_df.sort_values('Similarity')` (line 256). -/
def simLe (targetTemp targetSalt : Rat) (a b : EnvRecord) : Prop :=
  similarity targetTemp targetSalt a ≤ similarity targetTemp targetSalt b

instance (t s : Rat) : DecidableRel (simLe t s) := fun a b =>
  inferInstanceAs (Decidable (similarity t s a ≤ similarity t s b))

instance (t s : Rat) : IsTotal EnvRecord (simLe t s) :=
  ⟨fun a b => le_total (similarity t s a) (similarity t s b)⟩

instance (t s : Rat) : IsTrans EnvRecord (simLe t s) :=
  ⟨fun _ _ _ hab hbc => le_trans hab hbc⟩

/-- Lines 255-257: sort the records by ascending `Similarity` and keep the
first five (`env_df.sort_values('Similarity').head(5)`); the pandas sort is
modelled by insertion sort, realising one admissible tie-breaking. -/
def top5Similar (rows : List EnvRecord) (t s : Rat) : List EnvRecord :=
  (List.insertionSort (simLe t s) rows).take 5

/-- The in-memory environment DataFrame during a session: its record rows
plus the optional `Similarity` column written into it by tab 3
(line 255). -/
structure EnvDF where
  rows : List EnvRecord
  simCol : Option (List Rat)
  deriving DecidableEq, Repr

/-- Closed-form ordinary-least-squares slope of
`LinearRegression().fit(env_df[['Temp']], env_df['Salt'])` (lines 233-236);
the degenerate zero-variance case inherits Lean's convention `q / 0 = 0`. -/
def olsSlope (rows : List EnvRecord) : Rat :=
  let n : Rat := rows.length
  let sx := (rows.map EnvRecord.temp).sum
  let sy := (rows.map EnvRecord.salt).sum
  let sxx := (rows.map (fun r => r.temp * r.temp)).sum
  let sxy := (rows.map (fun r => r.temp * r.salt)).sum
  (n * sxy - sx * sy) / (n * sxx - sx * sx)

/-- Ordinary-least-squares intercept for the same fit. -/
def olsIntercept (rows : List EnvRecord) : Rat :=
  listMean (rows.map EnvRecord.salt) - olsSlope rows * listMean (rows.map EnvRecord.temp)

/-- Line 237, `model.predict([[input_temp]])[0]`. -/
def olsPredict (rows : List EnvRecord) (t : Rat) : Rat :=
  olsSlope rows * t + olsIntercept rows

/-- Tab 1 handler (lines 173-189), with explicit state passing: looks up
the date, assesses the means when present, and hands the frame back. -/
def tab1Run (df : EnvDF) (d : Date) :
    Option (Rat × Rat × Tier × Color × List Reason) × EnvDF :=
  ((queryByDate df.rows d).map fun p => (p.1, p.2, assess_red_tide_risk p.1 p.2), df)

/-- Line 205, `env_df[env_df['MM-DD'] == target_md]`: the rows whose
month-day (the `MM-DD` column precomputed at line 58) matches the target. -/
def matchingMonthDay (rows : List EnvRecord) (m day : Nat) : List EnvRecord :=
  rows.filter fun r => decide (r.date.month = m) && decide (r.date.day = day)

/-- Tab 2 handler (lines 203-222): climatological prediction for a future
month-day, absent when no historical sample matches. -/
def tab2Run (df : EnvDF) (m day : Nat) :
    Option (Rat × Rat × Tier × Color × List Reason) × EnvDF :=
  let samples := matchingMonthDay df.rows m day
  (if 0 < samples.length then
    let predT := listMean (samples.map EnvRecord.temp)
    let predS := listMean (samples.map EnvRecord.salt)
    some (predT, predS, assess_red_tide_risk predT predS)
  else none, df)

/-- Tab 3 handler (lines 232-257): fits the regression, predicts the
salinity for the input temperature, assesses it, and ranks the five most
similar historical rows — writing the `Similarity` column into `env_df`
(line 255) as the source does. -/
def tab3Run (df : EnvDF) (inputTemp : Rat) :
    (Rat × (Tier × Color × List Reason) × List EnvRecord) × EnvDF :=
  let predSalt := olsPredict df.rows inputTemp
  let result := assess_red_tide_risk inputTemp predSalt
  let df' : EnvDF :=
    { rows := df.rows, simCol := some (df.rows.map (similarity inputTemp predSalt)) }
  ((predSalt, result, top5Similar df.rows inputTemp predSalt), df')

/-- One point of the tab-4 scatter plot. -/
structure PlotPoint where
  temp : Rat
  salt : Rat
  density : Rat
  deriving DecidableEq, Repr

/-- Ascending-density ordering of `total_df.sort_values('Density')`
(line 283). -/
def densityLe (a b : PlotPoint) : Prop :=
  a.density ≤ b.density

instance : DecidableRel densityLe := fun a b =>
  inferInstanceAs (Decidable (a.density ≤ b.density))

instance : IsTotal PlotPoint densityLe := ⟨fun a b => le_total a.density b.density⟩

instance : IsTrans PlotPoint densityLe := ⟨fun _ _ _ hab hbc => le_trans hab hbc⟩

/-- Tab 4 data preparation (lines 266-283): the random
`env_df.sample(min(len(env_df), 5000))` is modelled by passing the chosen
sample in as an argument; the source `.copy()`-s both the sample and the
filtered occurrence frame, assigns `Density = 0` on the background,
concatenates, and sorts by density — touching neither loaded frame. -/
def tab4Run (df : EnvDF) (occur : List OccurRecord) (bgSample : List EnvRecord) :
    List PlotPoint × EnvDF × List OccurRecord :=
  let bg := bgSample.map fun r => PlotPoint.mk r.temp r.salt 0
  let target := (occur.filter fun r => decide (0 < r.density)).map fun r =>
    PlotPoint.mk r.temp r.salt r.density
  let total := List.insertionSort densityLe (bg ++ target)
  (total, df, occur)

/-- Concrete raw row used for the C5 failing input. -/
def badRawRow : RawRow :=
  ⟨"2020-13-99", -1, 46⟩

/-- Concrete in-bounds environment record. -/
def goodEnvRow : EnvRecord :=
  ⟨⟨2020, 8, 15⟩, 25, 33⟩

/-- Concrete record with out-of-bounds salinity (46 ≥ 45). -/
def badSaltRow : EnvRecord :=
  ⟨⟨2020, 8, 16⟩, 25, 46⟩

/-- Concrete record with out-of-bounds temperature (-1 ≤ 0). -/
def badTempRow : EnvRecord :=
  ⟨⟨2020, 8, 17⟩, -1, 33⟩

/-- Concrete record dated after `earlierRow`. -/
def laterRow : EnvRecord :=
  ⟨⟨2021, 1, 2⟩, 22, 33⟩

/-- Concrete record dated before `laterRow`. -/
def earlierRow : EnvRecord :=
  ⟨⟨2021, 1, 1⟩, 23, 33⟩

/-- Concrete raw occurrence row whose density parses to a negative
number. -/
def negDensityRaw : OccurRawRow :=
  ⟨⟨2020, 8, 15⟩, 25, 33, some (-5)⟩

/-- Concrete raw occurrence rows: one positive parsed density, one
unparsable density. -/
def exOccRaws : List OccurRawRow :=
  [⟨⟨2020, 8, 15⟩, 25, 33, some 120⟩, ⟨⟨2020, 8, 16⟩, 24, 32, none⟩]

/-- Concrete environment frame with no `Similarity` column. -/
def exDF : EnvDF :=
  ⟨[goodEnvRow], none⟩

example : assess_red_tide_risk 25 33 = (.severe, .red, [.optimalTemp, .optimalSalt]) := by
  norm_num [assess_red_tide_risk, riskScore, tempEval, saltEval]

example : tempEval 27.5 = (70, .optimalTemp) := by norm_num [tempEval]

example : tempEval 30 = (65, .midTemp) := by norm_num [tempEval]

example : assess_red_tide_risk 10 10 = (.safe, .green, [.lowTemp, .lowSalt]) := by
  norm_num [assess_red_tide_risk, riskScore, tempEval, saltEval]

set_option maxHeartbeats 2000000 in
theorem bracketMatchCount_le_one {t : Rat} (ht : t ≠ 30) : bracketMatchCount t ≤ 1 := by
  have h30 := lt_or_gt_of_ne ht
  unfold bracketMatchCount
  split_ifs with h1 h2 h3 h4 h5 h6 h7 h8 <;>
    first
      | decide
      | (exfalso
         try obtain ⟨h4a, h4b⟩ := h4
         try obtain ⟨h5a, h5b⟩ := h5
         try obtain ⟨h6a, h6b⟩ := h6
         rcases h30 with h30 | h30 <;> linarith)

theorem bracketMatchCount_thirty : bracketMatchCount 30 = 2 := by
  norm_num [bracketMatchCount]

/-- Upper bound on the temperature contribution: every branch of the
temperature chain adds at most 70 to the score. -/
theorem tempEval_le_70 (t : Rat) : (tempEval t).1 ≤ 70 := by
  unfold tempEval
  split_ifs <;> norm_num

/-- Outside the optimal salinity band the salinity branch contributes at
most -10 to the score. -/
theorem saltEval_outside_band {s : Rat} (h : ¬(31 ≤ s ∧ s ≤ 34)) :
    (saltEval s).1 ≤ -10 := by
  unfold saltEval
  split_ifs <;> norm_num

/-- C1: `assess_red_tide_risk` returns exactly one tier from
{Safe, Caution, Severe}, determined by thresholding the summed integer
score: Severe iff score ≥ 85, Caution iff 40 ≤ score < 85, Safe iff
score < 40; and the reasons list is non-empty (it always holds the
temperature reason followed by the salinity reason). -/
theorem assess_tier_thresholds (temp salt : Rat) :
    ((assess_red_tide_risk temp salt).1 = Tier.severe ↔ 85 ≤ riskScore temp salt) ∧
    ((assess_red_tide_risk temp salt).1 = Tier.caution ↔
      40 ≤ riskScore temp salt ∧ riskScore temp salt < 85) ∧
    ((assess_red_tide_risk temp salt).1 = Tier.safe ↔ riskScore temp salt < 40) ∧
    (assess_red_tide_risk temp salt).2.2 ≠ [] := by
  simp only [assess_red_tide_risk]
  split_ifs with h1 h2 <;> refine ⟨?_, ?_, ?_, by simp⟩ <;> simp <;> omega

/-- C2, counterexample: at temperature exactly 30.0 two bracket conditions
hold at once (`27.6 <= temp <= 30` and `temp >= 30`), so the brackets are
not mutually exclusive and it is not the case that exactly one bracket
applies at every stated cutoff. -/
theorem claim_C2_counterexample : bracketMatchCount 30 = 2 :=
  bracketMatchCount_thirty

/-- C2, amended: the eight temperature bracket conditions are pairwise
exclusive except at temperature exactly 30, where precisely two conditions
hold (`27.6 <= temp <= 30` and `temp >= 30`); the `elif` chain resolves the
overlap in favour of the mid band (score 65).  At the cutoffs 25.0 and 27.5
exactly one bracket applies, and together with the final `else` the chain
still assigns exactly one branch to every temperature. -/
theorem tempBrackets_amended :
    (∀ t : Rat, bracketMatchCount t ≤ 2 ∧ (bracketMatchCount t = 2 ↔ t = 30)) ∧
    bracketMatchCount 25 = 1 ∧ bracketMatchCount 27.5 = 1 ∧
    tempEval 30 = (65, Reason.midTemp) := by
  refine ⟨fun t => ?_, by norm_num [bracketMatchCount], by norm_num [bracketMatchCount],
    by norm_num [tempEval]⟩
  by_cases ht : t = 30
  · subst ht
    rw [bracketMatchCount_thirty]
    simp
  · have h := bracketMatchCount_le_one ht
    exact ⟨h.trans (by norm_num), fun h2 => absurd h2 (by omega), fun h30 => absurd h30 ht⟩

/-- C3: whenever `assess_red_tide_risk` classifies as Severe, the salinity
lies in the optimal band 31 ≤ salt ≤ 34: the temperature branch contributes
at most 70, and outside the band the salinity branch contributes at most
-10, so the summed score stays at most 60, below the Severe threshold 85. -/
theorem severe_requires_optimal_salinity (temp salt : Rat)
    (h : (assess_red_tide_risk temp salt).1 = Tier.severe) :
    31 ≤ salt ∧ salt ≤ 34 := by
  by_contra hband
  have h1 : (tempEval temp).1 ≤ 70 := tempEval_le_70 temp
  have h2 : (saltEval salt).1 ≤ -10 := saltEval_outside_band hband
  have h4 : ¬(85 ≤ riskScore temp salt) := by unfold riskScore; omega
  simp only [assess_red_tide_risk] at h
  rw [if_neg h4] at h
  rcases le_or_lt 40 (riskScore temp salt) with h5 | h5
  · rw [if_pos h5] at h
    simp at h
  · rw [if_neg (not_le.mpr h5)] at h
    simp at h

/-- Witness for C3 at the concrete input (25, 33), which is classified
Severe. -/
theorem severe_requires_optimal_salinity_witness :
    31 ≤ (33 : Rat) ∧ (33 : Rat) ≤ 34 :=
  severe_requires_optimal_salinity 25 33
    (by norm_num [assess_red_tide_risk, riskScore, tempEval, saltEval])

/-- The arithmetic-mean characterisation: for a non-empty list the mean
times the length recovers the sum. -/
theorem listMean_mul_length {l : List Rat} (h : l ≠ []) :
    listMean l * l.length = l.sum := by
  have hlen : l.length ≠ 0 := fun hl => h (List.length_eq_zero.mp hl)
  have hcast : (l.length : Rat) ≠ 0 := Nat.cast_ne_zero.mpr hlen
  unfold listMean
  exact div_mul_cancel₀ l.sum hcast

/-- C4: the historical-date query returns absent exactly when no record
matches the queried calendar date, and otherwise returns the arithmetic
means of the temperatures and salinities over the matching records (the
returned values times the match count recover the respective sums). -/
theorem queryByDate_correct (rows : List EnvRecord) (d : Date) :
    (queryByDate rows d = none ↔ matchingDate rows d = []) ∧
    (∀ mt ms, queryByDate rows d = some (mt, ms) →
      mt * (matchingDate rows d).length = ((matchingDate rows d).map EnvRecord.temp).sum ∧
      ms * (matchingDate rows d).length = ((matchingDate rows d).map EnvRecord.salt).sum) := by
  simp only [queryByDate]
  rcases Nat.eq_zero_or_pos (matchingDate rows d).length with h0 | hpos
  · rw [if_neg (by omega)]
    have hnil : matchingDate rows d = [] := List.length_eq_zero.mp h0
    exact ⟨by simp [hnil], fun mt ms hsome => by cases hsome⟩
  · rw [if_pos hpos]
    have hne : matchingDate rows d ≠ [] := by
      intro hnil
      rw [hnil] at hpos
      exact absurd hpos (by simp)
    refine ⟨by simp [hne], fun mt ms hsome => ?_⟩
    have hmt : mt = listMean ((matchingDate rows d).map EnvRecord.temp) := by
      have := congrArg (fun o => o.map Prod.fst) hsome
      simpa using this.symm
    have hms : ms = listMean ((matchingDate rows d).map EnvRecord.salt) := by
      have := congrArg (fun o => o.map Prod.snd) hsome
      simpa using this.symm
    have hlt : (matchingDate rows d).map EnvRecord.temp ≠ [] := by
      simpa using hne
    have hls : (matchingDate rows d).map EnvRecord.salt ≠ [] := by
      simpa using hne
    subst hmt hms
    constructor
    · simpa using listMean_mul_length hlt
    · simpa using listMean_mul_length hls

/-- Concrete date used by the C4 witness. -/
def queryExampleDate : Date :=
  ⟨2020, 8, 15⟩

/-- Two intraday samples on the same date, temperatures 24 and 26. -/
def queryExampleRows : List EnvRecord :=
  [⟨queryExampleDate, 24, 33⟩, ⟨queryExampleDate, 26, 32⟩]

/-- Witness for C4: on two records with temperatures 24 and 26 the query
returns the mean temperature 25 (and mean salinity 32.5), and the means
recover the sums. -/
theorem queryByDate_correct_witness :
    (25 : Rat) * (matchingDate queryExampleRows queryExampleDate).length =
      ((matchingDate queryExampleRows queryExampleDate).map EnvRecord.temp).sum ∧
    (32.5 : Rat) * (matchingDate queryExampleRows queryExampleDate).length =
      ((matchingDate queryExampleRows queryExampleDate).map EnvRecord.salt).sum :=
  (queryByDate_correct queryExampleRows queryExampleDate).2 25 32.5
    (by norm_num [queryByDate, matchingDate, queryExampleRows, queryExampleDate, listMean])

/-- C5, evaluation at the failing input: when the CSV at the first
candidate path is readable but its `Date` column fails to parse, the
swallowed exception of `except: pass` leaves the partially-processed raw
frame in `env_df` (assigned before `pd.to_datetime` raised), and with no
later candidate succeeding, `load_all_data` returns that partial frame
instead of absent.  The second conjunct records the part of the claim the
code does satisfy: when no candidate gets past `pd.read_csv`, the result
is absent. -/
theorem claim_C5_residual_frame :
    loadEnvData [Candidate.dateError [badRawRow], Candidate.missing] =
      some (EnvResult.residualData [badRawRow]) ∧
    loadEnvData [Candidate.missing, Candidate.readError] = none :=
  ⟨rfl, rfl⟩

/-- Any `cleanData` result produced by the probing loop is the outlier
filter applied to some candidate's parsed rows. -/
theorem loadEnvLoop_cleanData (cs : List Candidate) :
    ∀ (acc : Option EnvResult) (rows : List EnvRecord),
      loadEnvLoop cs acc = some (EnvResult.cleanData rows) →
      acc = some (EnvResult.cleanData rows) ∨ ∃ raws, rows = cleanRows raws := by
  induction cs with
  | nil =>
    intro acc rows h
    exact Or.inl h
  | cons c rest ih =>
    intro acc rows h
    cases c with
    | missing => exact (ih acc rows h).imp_left id
    | readError => exact (ih acc rows h).imp_left id
    | dateError raw =>
      rcases ih (some (EnvResult.residualData raw)) rows h with hacc | hgood
      · cases hacc
      · exact Or.inr hgood
    | ok parsed =>
      simp only [loadEnvLoop] at h
      obtain h' := Option.some.inj h
      exact Or.inr ⟨parsed, (EnvResult.cleanData.inj h').symm⟩

/-- C6: every record in a successfully loaded (fully processed) environment
collection satisfies the bounds invariant temperature > 0 and
0 < salinity < 45 — the line-56 filter discards every other row. -/
theorem loadEnvData_bounds (cs : List Candidate) (rows : List EnvRecord)
    (h : loadEnvData cs = some (EnvResult.cleanData rows)) (r : EnvRecord)
    (hr : r ∈ rows) : 0 < r.temp ∧ 0 < r.salt ∧ r.salt < 45 := by
  rcases loadEnvLoop_cleanData cs none rows h with hacc | ⟨raws, hraws⟩
  · cases hacc
  · subst hraws
    have := List.of_mem_filter hr
    simpa [Bool.and_assoc] using this

/-- Witness for C6: loading a file holding one in-bounds row, one row with
salinity 46 and one row with temperature -1 keeps only the in-bounds row,
which satisfies the invariant. -/
theorem loadEnvData_bounds_witness :
    loadEnvData [Candidate.ok [goodEnvRow, badSaltRow, badTempRow]] =
      some (EnvResult.cleanData [goodEnvRow]) ∧
    (0 < goodEnvRow.temp ∧ 0 < goodEnvRow.salt ∧ goodEnvRow.salt < 45) := by
  have hload : loadEnvData [Candidate.ok [goodEnvRow, badSaltRow, badTempRow]] =
      some (EnvResult.cleanData [goodEnvRow]) := by
    norm_num [loadEnvData, loadEnvLoop, cleanRows, goodEnvRow, badSaltRow, badTempRow,
      List.filter]
  exact ⟨hload,
    loadEnvData_bounds [Candidate.ok [goodEnvRow, badSaltRow, badTempRow]] [goodEnvRow]
      hload goodEnvRow (List.mem_singleton.mpr rfl)⟩

/-- C7, counterexample: a parseable file whose two in-bounds rows are in
descending date order loads successfully, yet the returned collection is in
the file's order, not ascending date order — `load_all_data` never sorts
(`set_index` does not reorder rows). -/
theorem claim_C7_counterexample :
    loadEnvData [Candidate.ok [laterRow, earlierRow]] =
      some (EnvResult.cleanData [laterRow, earlierRow]) ∧
    ¬ dateSorted [laterRow, earlierRow] := by
  constructor
  · norm_num [loadEnvData, loadEnvLoop, cleanRows, laterRow, earlierRow, List.filter]
  · intro h
    have := List.rel_of_pairwise_cons h (List.mem_singleton.mpr rfl)
    simp [Date.le, Date.key, laterRow, earlierRow] at this

/-- C7, amended: the cleaned collection returned for a successfully parsed
file is the input rows with out-of-bounds rows removed, in their original
file order (an order-preserving sublist); it is in ascending date order
precisely when the surviving input rows already were — in particular
whenever the input file is date-sorted. -/
theorem loadEnvData_order_amended (raws : List EnvRecord) :
    loadEnvData [Candidate.ok raws] = some (EnvResult.cleanData (cleanRows raws)) ∧
    (cleanRows raws).Sublist raws ∧
    (dateSorted raws → dateSorted (cleanRows raws)) := by
  refine ⟨rfl, List.filter_sublist raws, fun h => ?_⟩
  exact List.Pairwise.sublist (List.filter_sublist raws) h

/-- Witness for C7's amended claim on a date-sorted two-row file. -/
theorem loadEnvData_order_amended_witness :
    loadEnvData [Candidate.ok [earlierRow, laterRow]] =
      some (EnvResult.cleanData (cleanRows [earlierRow, laterRow])) ∧
    (cleanRows [earlierRow, laterRow]).Sublist [earlierRow, laterRow] ∧
    dateSorted (cleanRows [earlierRow, laterRow]) :=
  ⟨(loadEnvData_order_amended [earlierRow, laterRow]).1,
    (loadEnvData_order_amended [earlierRow, laterRow]).2.1,
    (loadEnvData_order_amended [earlierRow, laterRow]).2.2 (by decide)⟩

/-- C8, counterexample: a density cell that parses to the negative number
-5 survives `pd.to_numeric(..., errors='coerce').fillna(0)` unchanged, so
the loaded occurrence collection carries a record with negative density. -/
theorem claim_C8_counterexample :
    processOccurRows [negDensityRaw] =
      [{ date := ⟨2020, 8, 15⟩, temp := 25, salt := 33, density := -5 }] ∧
    (-5 : Rat) < 0 :=
  ⟨rfl, by norm_num⟩

/-- C8, amended: after the load every record's density is numeric, equal to
the parsed cell value with unparsable cells coerced to 0; densities are
otherwise taken as-is, so the collection is free of negative densities
exactly when every parsable cell is non-negative. -/
theorem processOccur_density_amended (rows : List OccurRawRow) :
    (processOccurRows rows).map OccurRecord.density =
      rows.map (fun r => r.density.getD 0) ∧
    ((∀ r ∈ rows, ∀ q : Rat, r.density = some q → 0 ≤ q) →
      ∀ rec ∈ processOccurRows rows, 0 ≤ rec.density) := by
  constructor
  · simp [processOccurRows]
  · intro hpos rec hrec
    simp only [processOccurRows, List.mem_map] at hrec
    obtain ⟨r, hr, hrrec⟩ := hrec
    subst hrrec
    cases hd : r.density with
    | none => simp [hd]
    | some q =>
      have := hpos r hr q hd
      simpa [hd] using this

/-- Witness for C8's amended claim: a file with one parsed density 120 and
one unparsable density loads to densities [120, 0], all non-negative; the
record coming from the unparsable cell carries density 0. -/
theorem processOccur_density_amended_witness :
    0 ≤ ({ date := ⟨2020, 8, 16⟩, temp := 24, salt := 32, density := 0 } : OccurRecord).density :=
  (processOccur_density_amended exOccRaws).2
    (by
      intro r hr q hq
      rcases List.mem_cons.mp hr with h | h
      · subst h
        rw [Option.some.inj hq.symm]
        norm_num
      · rcases List.mem_singleton.mp h with h
        subst h
        cases hq)
    { date := ⟨2020, 8, 16⟩, temp := 24, salt := 32, density := 0 }
    (by decide)

/-- C9: for every dataset and target point, the similarity ranking of
lines 255-257 returns min(5, n) records, sorted by ascending squared
Euclidean distance; together with the dropped remainder of the sorted list
it is a permutation of the dataset, and every returned record's distance is
at most that of every dropped record — i.e. the result is exactly a
5-smallest selection in ascending order. -/
theorem top5Similar_correct (rows : List EnvRecord) (t s : Rat) :
    (top5Similar rows t s).length = min 5 rows.length ∧
    List.Sorted (simLe t s) (top5Similar rows t s) ∧
    List.Perm (top5Similar rows t s ++ (List.insertionSort (simLe t s) rows).drop 5) rows ∧
    (∀ x ∈ top5Similar rows t s, ∀ y ∈ (List.insertionSort (simLe t s) rows).drop 5,
      similarity t s x ≤ similarity t s y) := by
  have hperm := List.perm_insertionSort (simLe t s) rows
  have hsort := List.sorted_insertionSort (simLe t s) rows
  have hsplit := List.take_append_drop 5 (List.insertionSort (simLe t s) rows)
  refine ⟨?_, ?_, ?_, ?_⟩
  · rw [top5Similar, List.length_take, List.length_insertionSort]
  · exact List.Pairwise.sublist (List.take_sublist 5 _) hsort
  · rw [top5Similar, hsplit]
    exact hperm
  · have hpw : List.Pairwise (simLe t s)
        ((List.insertionSort (simLe t s) rows).take 5 ++
          (List.insertionSort (simLe t s) rows).drop 5) := by
      rw [hsplit]
      exact hsort
    exact fun x hx y hy => (List.pairwise_append.mp hpw).2.2 x hx y hy

/-- C10, counterexample: running the tab-3 handler mutates the loaded
environment frame — it writes the `Similarity` column into `env_df`
(line 255), so the frame after the operation differs from the frame
before. -/
theorem claim_C10_counterexample : (tab3Run exDF 25).2 ≠ exDF := by
  intro h
  have hcol := congrArg EnvDF.simCol h
  simp [tab3Run, exDF] at hcol

/-- C10, amended: the historical lookup, the future-date prediction and the
visualization leave the loaded frames entirely unchanged, and every
operation recomputes its outputs from the records; the temperature-driven
prediction of tab 3 preserves the record rows (and never touches the
occurrence collection) but adds the derived `Similarity` column to the
environment frame. -/
theorem frames_preserved_amended (df : EnvDF) (occur : List OccurRecord) (d : Date)
    (m day : Nat) (t : Rat) (bgSample : List EnvRecord) :
    (tab1Run df d).2 = df ∧
    (tab2Run df m day).2 = df ∧
    (tab3Run df t).2.rows = df.rows ∧
    (tab3Run df t).2.simCol = some (df.rows.map (similarity t (olsPredict df.rows t))) ∧
    (tab4Run df occur bgSample).2 = (df, occur) :=
  ⟨rfl, rfl, rfl, rfl, rfl⟩

/-- Witness for C1 at the concrete input (25, 33): the score is 120 ≥ 85
and the tier is Severe. -/
theorem assess_tier_thresholds_witness :
    (assess_red_tide_risk 25 33).1 = Tier.severe :=
  (assess_tier_thresholds 25 33).1.mpr (by norm_num [riskScore, tempEval, saltEval])

/-- Witness for C2's amended claim at the concrete temperature 22, where a
single bracket (the 21-24.9 band) applies. -/
theorem tempBrackets_amended_witness : bracketMatchCount 22 ≤ 2 :=
  (tempBrackets_amended.1 22).1

/-- Witness for C9 on a concrete one-row dataset. -/
theorem top5Similar_correct_witness :
    (top5Similar [goodEnvRow] 25 33).length = min 5 [goodEnvRow].length :=
  (top5Similar_correct [goodEnvRow] 25 33).1

/-- Witness for C10's amended claim on the concrete frame `exDF`. -/
theorem frames_preserved_amended_witness :
    (tab1Run exDF queryExampleDate).2 = exDF :=
  (frames_preserved_amended exDF [] queryExampleDate 8 15 25 []).1

end RedTide
